import Mathlib

/-!
Verification of the client-side navigation / filter / theme orchestration
layer of the blog. The definitions below are shallow embeddings of the
JavaScript source:

* the filter/sort engine (`initFilters`, `filterPosts`, `sortPosts`);
* the navigation controller (`transitions.js`: the click-listener guard,
  `isLanguageSwitchNavigation`, and `navigateTo`);
* the theme controller (`theme.js`: `getInitialTheme`, `applyTheme`,
  `toggleTheme`).

Stateful, effectful code is embedded as pure functions that return an
explicit trace of the side effects they perform, in the order the source
performs them.
-/

namespace Blog

/-! ## Filter/Sort engine data model

A post card as the filter engine sees it: the `data-year`, `data-month`
and `data-tags` attributes (each possibly absent), and the two sort
timestamps `data-created` / `data-updated` (embedded as the numeric value
`new Date(s).getTime()` the comparator actually uses). -/

structure PostCard where
  year : Option String
  month : Option String
  tags : Option String
  created : Nat
  updated : Nat
deriving DecidableEq, Repr

/-- Tag parsing from `filterPosts`:
`card.dataset.tags ? card.dataset.tags.split(',').map(t => t.trim()) : []`.
An absent attribute and the empty string (both falsy in JS) give `[]`. -/
def parseTags : Option String → List String
  | none => []
  | some s => if s = "" then [] else (s.splitOn ",").map String.trim

/-- The active filter state of `initFilters`: `year` and `month` are `''`
when inactive (JS tests `!activeFilters.year`); `tags` holds the contents
of the `Set` of active tag filters. -/
structure FilterState where
  year : String
  month : String
  tags : List String
deriving DecidableEq, Repr

/-- The visibility predicate of `filterPosts`:

    const yearMatch = !activeFilters.year || cardYear === activeFilters.year;
    const monthMatch = !activeFilters.month || cardMonth === activeFilters.month;
    const tagsMatch = activeFilters.tags.size === 0 ||
        cardTags.some(tag => activeFilters.tags.has(tag));
    const shouldShow = yearMatch && monthMatch && tagsMatch;

`cardYear === activeFilters.year` is strict string equality, false when the
attribute is absent (`undefined`). -/
def postVisible (f : FilterState) (c : PostCard) : Bool :=
  let cardTags := parseTags c.tags
  let yearMatch := f.year == "" || c.year == some f.year
  let monthMatch := f.month == "" || c.month == some f.month
  let tagsMatch := f.tags.isEmpty || cardTags.any (fun t => f.tags.contains t)
  yearMatch && monthMatch && tagsMatch

/-- The visibility predicate in the words of the specification: an item is
visible iff (no year filter OR year matches) AND (no month filter OR month
matches) AND (no tag filter OR the card's tags intersect the active tag
set). Stated independently of `postVisible` so the two can be compared. -/
def specVisible (f : FilterState) (c : PostCard) : Prop :=
  (f.year = "" ∨ c.year = some f.year) ∧
  (f.month = "" ∨ c.month = some f.month) ∧
  (f.tags = [] ∨ ∃ t ∈ parseTags c.tags, t ∈ f.tags)

/-! ## Theorems: filter predicate -/

/-- C1: for every filter state and every card, `filterPosts` marks the card
visible if and only if (no year filter ∨ year matches) ∧ (no month filter ∨
month matches) ∧ (no tag filter ∨ the card's tag list meets the active tag
set). -/
theorem filter_visibility_iff (f : FilterState) (c : PostCard) :
    postVisible f c = true ↔ specVisible f c := by
  simp only [postVisible, specVisible, Bool.and_eq_true, Bool.or_eq_true,
    beq_iff_eq, List.isEmpty_iff, List.any_eq_true, List.elem_iff]
  tauto

/-- C10: a card whose `data-tags` attribute is absent or empty parses to the
empty tag list, and is therefore hidden whenever at least one tag filter is
active, regardless of its year and month. -/
theorem emptyTags_hidden_under_tagFilter (f : FilterState) (c : PostCard)
    (htags : c.tags = none ∨ c.tags = some "") (hf : f.tags ≠ []) :
    parseTags c.tags = [] ∧ postVisible f c = false := by
  have hparse : parseTags c.tags = [] := by
    rcases htags with h | h <;> simp [h, parseTags]
  refine ⟨hparse, ?_⟩
  simp [postVisible, hparse, List.isEmpty_iff, hf]

/-- Witness for C10 at a concrete card and filter state. -/
theorem emptyTags_hidden_under_tagFilter_witness :
    parseTags (PostCard.mk (some "2025") (some "03") none 10 20).tags = [] ∧
      postVisible ⟨"2025", "03", ["css"]⟩
        (PostCard.mk (some "2025") (some "03") none 10 20) = false :=
  emptyTags_hidden_under_tagFilter ⟨"2025", "03", ["css"]⟩
    (PostCard.mk (some "2025") (some "03") none 10 20)
    (Or.inl rfl) (by decide)

/-! ## Sort engine

`sortPosts` sorts the visible cards with

    visibleCards.sort((a, b) => {
      const aDate = new Date(currentOrderBy === 'created' ? a.dataset.created
                                                          : a.dataset.updated).getTime();
      const bDate = ...;
      return bDate - aDate; // Newest first
    });

`Array.prototype.sort` is stable, and with this comparator its output is
the unique stable reordering that is descending in the selected timestamp.
A stable sort's output is uniquely determined by the input order and the
preorder, so we embed it as `List.insertionSort` (also stable) under the
"newest first" relation. -/

inductive OrderBy where
  | created
  | updated
deriving DecidableEq, Repr

/-- The timestamp the comparator reads for the selected order. -/
def sortKey : OrderBy → PostCard → Nat
  | .created, c => c.created
  | .updated, c => c.updated

/-- `a` may precede `b` in the sorted output: comparator `bDate - aDate ≤ 0`. -/
def keyGE (ord : OrderBy) (a b : PostCard) : Prop :=
  sortKey ord b ≤ sortKey ord a

instance (ord : OrderBy) : DecidableRel (keyGE ord) :=
  fun _ _ => Nat.decLe _ _

instance (ord : OrderBy) : IsTotal PostCard (keyGE ord) :=
  ⟨fun a b => Nat.le_total (sortKey ord b) (sortKey ord a)⟩

instance (ord : OrderBy) : IsTrans PostCard (keyGE ord) :=
  ⟨fun _ _ _ hab hbc => Nat.le_trans hbc hab⟩

/-- The sort operation of `sortPosts`: stable sort, newest first in the
selected field. -/
def sortPosts (ord : OrderBy) (cards : List PostCard) : List PostCard :=
  List.insertionSort (keyGE ord) cards

/-- Two permuted lists that are both sorted "newest first" in a field whose
values are pairwise distinct are equal. -/
theorem sorted_nodupKeys_perm_eq (ord : OrderBy) {l₁ l₂ : List PostCard}
    (hp : l₁.Perm l₂)
    (hs₁ : List.Sorted (keyGE ord) l₁) (hs₂ : List.Sorted (keyGE ord) l₂)
    (hnd : (l₂.map (sortKey ord)).Nodup) : l₁ = l₂ := by
  have hnd₁ : (l₁.map (sortKey ord)).Nodup := ((hp.map (sortKey ord)).nodup_iff).mpr hnd
  have hne₁ : l₁.Pairwise (fun a b => sortKey ord a ≠ sortKey ord b) := by
    simpa [List.Nodup, List.pairwise_map] using hnd₁
  have hne₂ : l₂.Pairwise (fun a b => sortKey ord a ≠ sortKey ord b) := by
    simpa [List.Nodup, List.pairwise_map] using hnd
  have hstrict₁ : l₁.Pairwise (fun a b => sortKey ord b < sortKey ord a) :=
    (hs₁.and hne₁).imp fun h => Nat.lt_of_le_of_ne h.1 fun he => h.2 he.symm
  have hstrict₂ : l₂.Pairwise (fun a b => sortKey ord b < sortKey ord a) :=
    (hs₂.and hne₂).imp fun h => Nat.lt_of_le_of_ne h.1 fun he => h.2 he.symm
  exact @List.eq_of_perm_of_sorted _ _
    ⟨fun a b h1 h2 => absurd h2 (Nat.lt_asymm h1)⟩ _ _ hp hstrict₁ hstrict₂

/-! ## Theorems: sort operation -/

/-- C7 counterexample: toggling the sort field twice does NOT return every
card sequence to its original relative order. Starting from `[a, b]` with
`a` older than `b` in both fields, sorting by `updated` and then by
`created` leaves the cards in newest-first order `[b, a]`, not the original
order. -/
theorem sort_toggle_not_involutive :
    sortPosts .created
        (sortPosts .updated
          [PostCard.mk none none none 1 1, PostCard.mk none none none 2 2]) ≠
      [PostCard.mk none none none 1 1, PostCard.mk none none none 2 2] := by
  decide

/-- C7 (amended): the sort operation returns a permutation of the visible
cards that is descending in the selected timestamp; repeating the sort with
unchanged input returns the same order (ties are resolved stably); and if
the original sequence was already in newest-first `created` order with
pairwise distinct `created` timestamps, toggling the sort field twice
(`updated` then back to `created`) returns the cards to their original
relative order. -/
theorem sortPosts_spec :
    (∀ (ord : OrderBy) (l : List PostCard),
        (sortPosts ord l).Perm l ∧
        List.Sorted (keyGE ord) (sortPosts ord l) ∧
        sortPosts ord (sortPosts ord l) = sortPosts ord l) ∧
    (∀ l : List PostCard,
        List.Sorted (keyGE .created) l →
        (l.map (sortKey .created)).Nodup →
        sortPosts .created (sortPosts .updated l) = l) := by
  constructor
  · intro ord l
    refine ⟨List.perm_insertionSort _ _, List.sorted_insertionSort _ _, ?_⟩
    exact (List.sorted_insertionSort (keyGE ord) l).insertionSort_eq
  · intro l hsorted hnd
    have hperm : (sortPosts .created (sortPosts .updated l)).Perm l :=
      (List.perm_insertionSort _ _).trans (List.perm_insertionSort _ _)
    exact sorted_nodupKeys_perm_eq .created hperm
      (List.sorted_insertionSort _ _) hsorted hnd

/-- Witness for C7's amended theorem at a concrete two-card sequence in
newest-first `created` order with distinct `created` timestamps. -/
theorem sortPosts_spec_witness :
    sortPosts .created
        (sortPosts .updated
          [PostCard.mk none none none 2 1, PostCard.mk none none none 1 2]) =
      [PostCard.mk none none none 2 1, PostCard.mk none none none 1 2] :=
  sortPosts_spec.2
    [PostCard.mk none none none 2 1, PostCard.mk none none none 1 2]
    (by decide) (by decide)

/-! ## Theme controller (`theme.js`)

The document-level theme state: the root element's `data-theme` attribute
(absent on a page that never set it) and the persisted
`localStorage['theme-preference']` entry. -/

structure ThemeState where
  attr : Option String
  stored : Option String
deriving DecidableEq, Repr

/-- `getInitialTheme`: the stored preference wins verbatim; otherwise the
system `prefers-color-scheme` media query decides. -/
def getInitialTheme (stored : Option String) (systemDark : Bool) : String :=
  match stored with
  | some s => s
  | none => if systemDark then "dark" else "light"

/-- The theme `toggleTheme` switches to:
`const next = current === 'light' ? 'dark' : 'light';`. -/
def nextTheme (current : String) : String :=
  if current = "light" then "dark" else "light"

/-- `toggleTheme`: reads `data-theme` (defaulting to `'light'` when absent),
flips it, applies it via `applyTheme` (which only sets the attribute) and
persists it to `localStorage`. -/
def toggleTheme (s : ThemeState) : ThemeState :=
  let current := s.attr.getD "light"
  let next := nextTheme current
  { attr := some next, stored := some next }

/-- The observable side effects a theme toggle can perform, in source
order. `forceReflow` / `addTransitionClass` / `removeTransitionClass` are
the steps the file-header comment describes; they are listed so their
absence from the actual trace can be stated. -/
inductive ThemeEffect where
  | setThemeAttr (t : String)
  | forceReflow
  | addTransitionClass
  | removeTransitionClass
  | persistPreference (t : String)
  | announceChange (t : String)
deriving DecidableEq, Repr

/-- `applyTheme` performs exactly one effect:
`document.documentElement.setAttribute('data-theme', theme)`. -/
def applyThemeEffects (theme : String) : List ThemeEffect :=
  [.setThemeAttr theme]

/-- The effect trace of one `toggleTheme` call, in source order:
`applyTheme(next, true); localStorage.setItem('theme-preference', next);
announceThemeChange(next);`. -/
def toggleThemeEffects (attr : Option String) : List ThemeEffect :=
  let next := nextTheme (attr.getD "light")
  applyThemeEffects next ++ [.persistPreference next, .announceChange next]

/-! ## Theorems: theme controller -/

/-- C8 counterexample: a theme toggle from the `light` state performs no
forced layout recalculation and never applies (or removes) a
transition-enabling marker, so the claimed four-step ordering does not
occur. -/
theorem toggle_no_transition_marker :
    ThemeEffect.addTransitionClass ∉ toggleThemeEffects (some "light") ∧
    ThemeEffect.forceReflow ∉ toggleThemeEffects (some "light") ∧
    ThemeEffect.removeTransitionClass ∉ toggleThemeEffects (some "light") := by
  decide

/-- C8 (amended): on every theme toggle the side effects occur in this
strict order: the theme state attribute changes first, then the preference
is persisted, then the change is announced for assistive technology; no
forced layout recalculation and no transition-enabling marker is involved
(transitions are permanently enabled in the stylesheet, per `applyTheme`'s
documentation). -/
theorem toggleTheme_effect_order (attr : Option String) :
    toggleThemeEffects attr =
      [.setThemeAttr (nextTheme (attr.getD "light")),
       .persistPreference (nextTheme (attr.getD "light")),
       .announceChange (nextTheme (attr.getD "light"))] := by
  rfl

/-- C9: after every toggle the `data-theme` attribute is exactly `light` or
`dark` (a missing or unrecognized prior value is normalized into this set),
the persisted preference equals the new attribute value, and on the
two-element space `{light, dark}` the toggle is an involution. -/
theorem toggleTheme_invariants (s : ThemeState) :
    ((toggleTheme s).attr = some "light" ∨ (toggleTheme s).attr = some "dark") ∧
    (toggleTheme s).stored = (toggleTheme s).attr ∧
    (∀ t : String, t = "light" ∨ t = "dark" → nextTheme (nextTheme t) = t) ∧
    (s.attr = some "light" ∨ s.attr = some "dark" →
      (toggleTheme (toggleTheme s)).attr = s.attr) := by
  refine ⟨?_, rfl, ?_, ?_⟩
  · by_cases h : s.attr.getD "light" = "light" <;>
      simp [toggleTheme, nextTheme, h]
  · rintro t (rfl | rfl) <;> simp [nextTheme]
  · rintro (h | h) <;> simp [toggleTheme, nextTheme, h]

/-- Witness for C9 at a concrete state: toggling twice from `dark` (with no
stored preference) returns the attribute to `dark`. -/
theorem toggleTheme_invariants_witness :
    (toggleTheme (toggleTheme ⟨some "dark", none⟩)).attr = some "dark" :=
  (toggleTheme_invariants ⟨some "dark", none⟩).2.2.2 (Or.inr rfl)

/-! ## Navigation controller (`transitions.js`)

Language-switch detection (`isLanguageSwitchNavigation`): the regex
`/^\/(en|pt)\//` matches exactly the paths that start with `/en/` or
`/pt/`, and `path.replace(/^\/(en|pt)\//, '/')` rewrites that prefix to a
single slash. -/

/-- The language segment of a path: `path.match(/^\/(en|pt)\//)?.[1]`.
The regex matches exactly a `/en/` or `/pt/` prefix; the test is phrased on
the path's character list so it evaluates inside the kernel. -/
def langOf (p : String) : Option String :=
  if p.data.take 4 = ['/', 'e', 'n', '/'] then some "en"
  else if p.data.take 4 = ['/', 'p', 't', '/'] then some "pt"
  else none

/-- `path.replace(/^\/(en|pt)\//, '/')`: rewrite a leading recognized
language segment to a single `/`, leaving other paths unchanged. -/
def stripLangPrefix (p : String) : String :=
  if (langOf p).isSome then ⟨'/' :: p.data.drop 4⟩ else p

/-- `isLanguageSwitchNavigation(oldPath, newPath)`: false unless both paths
carry a recognized language segment and the segments differ; then true iff
the paths agree once the language segment is removed. -/
def isLanguageSwitchNavigation (oldPath newPath : String) : Bool :=
  match langOf oldPath, langOf newPath with
  | some oldLang, some newLang =>
      if oldLang = newLang then false
      else stripLangPrefix oldPath == stripLangPrefix newPath
  | _, _ => false

/-- The filter-control values `captureFilterState` reads (`null` when the
page has no filter controls). -/
structure FilterControlState where
  filterText : String
  sortOrder : String
deriving DecidableEq, Repr

/-- The ContinuitySnapshot of the spec: the scroll offset and filter/sort
state captured before the fetch on a language switch. -/
structure ContinuitySnapshot where
  scroll : Nat
  filter : Option FilterControlState
deriving DecidableEq, Repr

/-- What `navigateTo` finds in the fetched document once parsed: the title,
whether a `main` element is present, and the value of the root `lang`
attribute (`''`, which is falsy, stands for an absent value). -/
structure FetchedDoc where
  title : String
  hasMain : Bool
  lang : String
deriving DecidableEq, Repr

/-- The outcome of `fetch(url, ...)`: rejection, a non-ok response, or an
ok response whose body parses (DOMParser never throws) into `doc`. -/
inductive FetchOutcome where
  | reject
  | notOk
  | ok (doc : FetchedDoc)
deriving DecidableEq, Repr

/-- The browser environment one `navigateTo` call runs against: the scroll
offset at capture time, the filter controls present on the page, and how
the fetch turns out. -/
structure NavEnv where
  scrollY : Nat
  filterControls : Option FilterControlState
  fetch : FetchOutcome
deriving DecidableEq, Repr

/-- The externally observable effects of `navigateTo`, in source order.
`snapshotCapture` marks where the continuity state is read (before the
fetch); the rest mirror the mutation callback, the catch branch and the
history update. -/
inductive Effect where
  | snapshotCapture
  | fetchReq (url : String)
  | setTitle (t : String)
  | replaceMain
  | setLang (l : String)
  | pushState (url : String)
  | scrollTo (y : Nat)
  | fallbackReload (url : String)
deriving DecidableEq, Repr

/-- The navigation controller's persistent state: the concurrency token
`isNavigating` and the current location path. -/
structure NavState where
  isNavigating : Bool
  url : String
deriving DecidableEq, Repr

/-- Result of one `navigateTo` call: the final controller state, the trace
of effects performed, and the continuity data captured (if any). -/
structure NavResult where
  state : NavState
  trace : List Effect
  snapshot : Option ContinuitySnapshot
deriving DecidableEq, Repr

/-- The body of `navigateTo` past the `isNavigating` guard (the token is
already held). In source order: detect the language switch, capture scroll
and filter state when switching, fetch; on rejection or a non-ok response
the `catch` branch reloads the destination and the `finally` branch
releases the token; on success the transition callback synchronously swaps
the title, swaps `main` when the fetched document has one, updates the
`lang` attribute when non-empty, pushes the history entry and sets the
scroll position — restored for a language switch, zero otherwise. -/
def navRun (fromUrl url : String) (env : NavEnv) : NavResult :=
  let isLS := isLanguageSwitchNavigation fromUrl url
  let scrollPosition := if isLS then env.scrollY else 0
  let snapshot : Option ContinuitySnapshot :=
    if isLS then some ⟨env.scrollY, env.filterControls⟩ else none
  let preEffects :=
    (if isLS then [Effect.snapshotCapture] else []) ++ [Effect.fetchReq url]
  match env.fetch with
  | .reject =>
      ⟨⟨false, url⟩, preEffects ++ [.fallbackReload url], snapshot⟩
  | .notOk =>
      ⟨⟨false, url⟩, preEffects ++ [.fallbackReload url], snapshot⟩
  | .ok doc =>
      let callback : List Effect :=
        [.setTitle doc.title]
        ++ (if doc.hasMain then [.replaceMain] else [])
        ++ (if doc.lang ≠ "" then [.setLang doc.lang] else [])
        ++ [.pushState url, .scrollTo scrollPosition]
      ⟨⟨false, url⟩, preEffects ++ callback, snapshot⟩

/-- `navigateTo`: `if (isNavigating) return; isNavigating = true;` then the
body above. -/
def navigateTo (st : NavState) (url : String) (env : NavEnv) : NavResult :=
  if st.isNavigating then ⟨st, [], none⟩
  else navRun st.url url env

/-- A link activation as the click listener sees it. -/
structure LinkEvent where
  hasLink : Bool
  sameOrigin : Bool
  targetBlank : Bool
  hasHash : Bool
  modifier : Bool
  href : String
deriving DecidableEq, Repr

/-- The guard conditions of the click listener that do not depend on the
controller state. -/
def staticOk (e : LinkEvent) : Bool :=
  e.hasLink && e.sameOrigin && !e.targetBlank && !e.hasHash && !e.modifier

/-- The full click-listener guard: a link activation is handled only when
every static condition holds and no navigation is in flight. -/
def clickGuard (isNav : Bool) (e : LinkEvent) : Bool :=
  staticOk e && !isNav

/-- One click event processed within a synchronous turn. The accumulator
holds the `isNavigating` token and the targets for which a navigation was
started. An accepted click calls `navigateTo`, whose synchronous prefix
re-checks the token and takes it. -/
def turnStep (acc : Bool × List String) (e : LinkEvent) : Bool × List String :=
  if clickGuard acc.1 e then
    if acc.1 then acc else (true, acc.2 ++ [e.href])
  else acc

/-- All click events of one synchronous turn, processed in order while any
navigation started earlier in the turn is still at its first suspension
point (so its token is still held). -/
def processTurn (isNav : Bool) (events : List LinkEvent) : Bool × List String :=
  events.foldl turnStep (isNav, [])

/-- The `fetch` requests recorded in a trace. -/
def fetchTargets (tr : List Effect) : List String :=
  tr.filterMap fun e =>
    match e with
    | .fetchReq u => some u
    | _ => none

/-- The scroll writes recorded in a trace. -/
def scrollWrites (tr : List Effect) : List Nat :=
  tr.filterMap fun e =>
    match e with
    | .scrollTo y => some y
    | _ => none

/-! ## Theorems: navigation controller -/

/-- C2: the `isNavigating` token admits at most one holder — a link
activation arriving while it is held leaves the controller state unchanged
(dropped, never queued or coalesced); of two activations fired in the same
synchronous turn only the first starts a navigation; and completing that
navigation leaves the URL on the first target, whatever the fetch
outcome. -/
theorem nav_concurrency_token :
    (∀ (acc : Bool × List String) (e : LinkEvent),
        acc.1 = true → turnStep acc e = acc) ∧
    (∀ e1 e2 : LinkEvent, staticOk e1 = true → staticOk e2 = true →
        processTurn false [e1, e2] = (true, [e1.href])) ∧
    (∀ (fromUrl url : String) (env : NavEnv),
        (navRun fromUrl url env).state.url = url ∧
        (navRun fromUrl url env).state.isNavigating = false) := by
  refine ⟨?_, ?_, ?_⟩
  · intro acc e h
    simp [turnStep, clickGuard, h]
  · intro e1 e2 h1 h2
    simp [processTurn, turnStep, clickGuard, h1, h2]
  · intro fromUrl url env
    cases henv : env.fetch <;> simp [navRun, henv]

/-- Witness for C2 at two concrete same-turn activations with different
targets: only the first starts a navigation, and its completion lands on
the first target. -/
theorem nav_concurrency_token_witness :
    processTurn false
        [⟨true, true, false, false, false, "/en/a.html"⟩,
         ⟨true, true, false, false, false, "/en/b.html"⟩] =
      (true, ["/en/a.html"]) ∧
    (navRun "/en/index.html" "/en/a.html" ⟨0, none, .reject⟩).state.url =
      "/en/a.html" :=
  ⟨nav_concurrency_token.2.1
      ⟨true, true, false, false, false, "/en/a.html"⟩
      ⟨true, true, false, false, false, "/en/b.html"⟩ (by decide) (by decide),
   (nav_concurrency_token.2.2 "/en/index.html" "/en/a.html" ⟨0, none, .reject⟩).1⟩

/-- C3: every call to `navigateTo` accepted while the controller is idle
issues exactly one fetch, and the concurrency token is released afterward
on every outcome — rejection, non-ok response, and every successful parse
(with or without a `main` region). -/
theorem nav_single_fetch_token_released (st : NavState) (url : String)
    (env : NavEnv) (hidle : st.isNavigating = false) :
    fetchTargets (navigateTo st url env).trace = [url] ∧
    (navigateTo st url env).state.isNavigating = false := by
  cases henv : env.fetch <;>
    cases hls : isLanguageSwitchNavigation st.url url <;>
      simp [navigateTo, navRun, hidle, henv, hls, fetchTargets,
        List.filterMap_append]

/-- Witness for C3 at a concrete idle state and a fetch that parses without
a `main` region. -/
theorem nav_single_fetch_token_released_witness :
    fetchTargets
        (navigateTo ⟨false, "/en/index.html"⟩ "/en/about.html"
          ⟨0, none, .ok ⟨"About", false, "en"⟩⟩).trace = ["/en/about.html"] ∧
    (navigateTo ⟨false, "/en/index.html"⟩ "/en/about.html"
        ⟨0, none, .ok ⟨"About", false, "en"⟩⟩).state.isNavigating = false :=
  nav_single_fetch_token_released ⟨false, "/en/index.html"⟩ "/en/about.html"
    ⟨0, none, .ok ⟨"About", false, "en"⟩⟩ rfl

/-- C4 counterexample: navigating from `/about.html` to `/about.html` —
two URLs whose paths are identical after removing the (absent) language
segment — captures no ContinuitySnapshot, because the code additionally
requires both paths to begin with a recognized language segment and the
two languages to differ. -/
theorem snapshot_iff_counterexample :
    ¬(((navigateTo ⟨false, "/about.html"⟩ "/about.html"
          ⟨0, none, .reject⟩).snapshot.isSome = true) ↔
        stripLangPrefix "/about.html" = stripLangPrefix "/about.html") := by
  decide

/-- C4 (amended): a ContinuitySnapshot is captured, before the fetch is
issued, if and only if both paths begin with a recognized language segment
(`/en/` or `/pt/`), the two segments differ, and the paths are identical
after the language segment is removed — i.e. exactly when
`isLanguageSwitchNavigation` holds. -/
theorem snapshot_iff_languageSwitch (st : NavState) (url : String)
    (env : NavEnv) (hidle : st.isNavigating = false) :
    ((navigateTo st url env).snapshot.isSome =
      isLanguageSwitchNavigation st.url url) ∧
    (isLanguageSwitchNavigation st.url url = true →
      ∃ rest, (navigateTo st url env).trace =
        Effect.snapshotCapture :: Effect.fetchReq url :: rest) ∧
    (isLanguageSwitchNavigation st.url url = false →
      Effect.snapshotCapture ∉ (navigateTo st url env).trace) := by
  refine ⟨?_, ?_, ?_⟩
  · cases henv : env.fetch <;>
      cases hls : isLanguageSwitchNavigation st.url url <;>
        simp [navigateTo, navRun, hidle, henv, hls]
  · intro hls
    cases henv : env.fetch <;>
      simp [navigateTo, navRun, hidle, henv, hls]
  · intro hls
    cases henv : env.fetch <;>
      simp [navigateTo, navRun, hidle, henv, hls]

/-- Witness for C4's amended theorem at a concrete language switch
(`/en/index.html` → `/pt/index.html`) and a concrete ordinary navigation
(`/en/index.html` → `/en/about.html`). -/
theorem snapshot_iff_languageSwitch_witness :
    (navigateTo ⟨false, "/en/index.html"⟩ "/pt/index.html"
        ⟨42, none, .reject⟩).snapshot.isSome =
      isLanguageSwitchNavigation "/en/index.html" "/pt/index.html" ∧
    (navigateTo ⟨false, "/en/index.html"⟩ "/en/about.html"
        ⟨42, none, .reject⟩).snapshot.isSome =
      isLanguageSwitchNavigation "/en/index.html" "/en/about.html" :=
  ⟨(snapshot_iff_languageSwitch ⟨false, "/en/index.html"⟩ "/pt/index.html"
      ⟨42, none, .reject⟩ rfl).1,
   (snapshot_iff_languageSwitch ⟨false, "/en/index.html"⟩ "/en/about.html"
      ⟨42, none, .reject⟩ rfl).1⟩

/-- C5 counterexample: when the fetched document parses but has no `main`
element, the navigation does NOT fall back to a full reload — it pushes the
history entry for the new URL (and skips only the `main` swap), leaving the
other document mutations applied. -/
theorem missingMain_counterexample :
    Effect.fallbackReload "/en/b.html" ∉
        (navigateTo ⟨false, "/en/a.html"⟩ "/en/b.html"
          ⟨0, none, .ok ⟨"B", false, "en"⟩⟩).trace ∧
    Effect.pushState "/en/b.html" ∈
        (navigateTo ⟨false, "/en/a.html"⟩ "/en/b.html"
          ⟨0, none, .ok ⟨"B", false, "en"⟩⟩).trace ∧
    Effect.replaceMain ∉
        (navigateTo ⟨false, "/en/a.html"⟩ "/en/b.html"
          ⟨0, none, .ok ⟨"B", false, "en"⟩⟩).trace := by
  decide

/-- C5 (amended): if the fetched response parses into a document without
the expected `main` region, no error is raised and no fallback reload
occurs: the `main` swap is silently skipped while the remaining mutations
(title, history entry, scroll) still run inside the transition callback,
and the token is released with the URL on the destination. -/
theorem missingMain_swap_skipped (st : NavState) (url : String)
    (env : NavEnv) (doc : FetchedDoc) (hidle : st.isNavigating = false)
    (hok : env.fetch = .ok doc) (hmain : doc.hasMain = false) :
    Effect.replaceMain ∉ (navigateTo st url env).trace ∧
    (∀ u, Effect.fallbackReload u ∉ (navigateTo st url env).trace) ∧
    Effect.pushState url ∈ (navigateTo st url env).trace ∧
    Effect.setTitle doc.title ∈ (navigateTo st url env).trace ∧
    (navigateTo st url env).state = ⟨false, url⟩ := by
  refine ⟨?_, ?_, ?_, ?_, ?_⟩ <;>
    cases hls : isLanguageSwitchNavigation st.url url <;>
      simp [navigateTo, navRun, hidle, hok, hmain, hls]

/-- Witness for C5's amended theorem at a concrete fetched document without
a `main` region. -/
theorem missingMain_swap_skipped_witness :
    Effect.replaceMain ∉
        (navigateTo ⟨false, "/en/a.html"⟩ "/en/c.html"
          ⟨0, none, .ok ⟨"C", false, ""⟩⟩).trace ∧
    (∀ u, Effect.fallbackReload u ∉
        (navigateTo ⟨false, "/en/a.html"⟩ "/en/c.html"
          ⟨0, none, .ok ⟨"C", false, ""⟩⟩).trace) ∧
    Effect.pushState "/en/c.html" ∈
        (navigateTo ⟨false, "/en/a.html"⟩ "/en/c.html"
          ⟨0, none, .ok ⟨"C", false, ""⟩⟩).trace ∧
    Effect.setTitle "C" ∈
        (navigateTo ⟨false, "/en/a.html"⟩ "/en/c.html"
          ⟨0, none, .ok ⟨"C", false, ""⟩⟩).trace ∧
    (navigateTo ⟨false, "/en/a.html"⟩ "/en/c.html"
        ⟨0, none, .ok ⟨"C", false, ""⟩⟩).state = ⟨false, "/en/c.html"⟩ :=
  missingMain_swap_skipped ⟨false, "/en/a.html"⟩ "/en/c.html"
    ⟨0, none, .ok ⟨"C", false, ""⟩⟩ ⟨"C", false, ""⟩ rfl rfl rfl

/-- C6: inside the synchronous mutation callback of a successful
navigation, exactly one scroll write occurs; on a language switch it equals
the offset captured (into the ContinuitySnapshot) before the fetch began,
and on an ordinary navigation it is the origin (top). -/
theorem scroll_restoration (st : NavState) (url : String) (env : NavEnv)
    (doc : FetchedDoc) (hidle : st.isNavigating = false)
    (hok : env.fetch = .ok doc) :
    scrollWrites (navigateTo st url env).trace =
      [if isLanguageSwitchNavigation st.url url then env.scrollY else 0] ∧
    (isLanguageSwitchNavigation st.url url = true →
      (navigateTo st url env).snapshot =
        some ⟨env.scrollY, env.filterControls⟩) := by
  constructor
  · cases hls : isLanguageSwitchNavigation st.url url <;>
      cases hmain : doc.hasMain <;>
        by_cases hlang : doc.lang = "" <;>
          simp [navigateTo, navRun, hidle, hok, hls, hmain, hlang,
            scrollWrites, List.filterMap_append]
  · intro hls
    simp [navigateTo, navRun, hidle, hok, hls]

/-- Witness for C6 at a concrete language switch with scroll offset 42 and
at a concrete ordinary navigation. -/
theorem scroll_restoration_witness :
    scrollWrites
        (navigateTo ⟨false, "/en/index.html"⟩ "/pt/index.html"
          ⟨42, some ⟨"css", "updated"⟩, .ok ⟨"Index", true, "pt"⟩⟩).trace =
      [if isLanguageSwitchNavigation "/en/index.html" "/pt/index.html"
          then 42 else 0] ∧
    (navigateTo ⟨false, "/en/index.html"⟩ "/pt/index.html"
        ⟨42, some ⟨"css", "updated"⟩, .ok ⟨"Index", true, "pt"⟩⟩).snapshot =
      some ⟨42, some ⟨"css", "updated"⟩⟩ :=
  ⟨(scroll_restoration ⟨false, "/en/index.html"⟩ "/pt/index.html"
      ⟨42, some ⟨"css", "updated"⟩, .ok ⟨"Index", true, "pt"⟩⟩
      ⟨"Index", true, "pt"⟩ rfl rfl).1,
   (scroll_restoration ⟨false, "/en/index.html"⟩ "/pt/index.html"
      ⟨42, some ⟨"css", "updated"⟩, .ok ⟨"Index", true, "pt"⟩⟩
      ⟨"Index", true, "pt"⟩ rfl rfl).2 (by decide)⟩

end Blog
